import Mathlib

/-!
Shallow embedding of the `sysdumpdev` Ansible module
(`plugins/modules/sysdumpdev.py`): the ConfigReader that parses the
`sysdumpdev -l` report (`get_dump_config`) and the Reconciler that diffs
desired parameters against the current configuration and builds the
`sysdumpdev` command line (`update_dump_config`, `set_dump_config`).
External command execution is injected as a collaborator function; the
list of argument vectors passed to the apply collaborator is returned
alongside the result so that non-invocation is provable.
-/

namespace Sysdumpdev

instance instDecEqExcept {ε α : Type} [DecidableEq ε] [DecidableEq α] :
    DecidableEq (Except ε α) := fun a b =>
  match a, b with
  | Except.error x, Except.error y =>
      if h : x = y then isTrue (by rw [h]) else isFalse (by simp [h])
  | Except.error _, Except.ok _ => isFalse (by simp)
  | Except.ok _, Except.error _ => isFalse (by simp)
  | Except.ok x, Except.ok y =>
      if h : x = y then isTrue (by rw [h]) else isFalse (by simp [h])

/-! ## Text primitives (Python `str.split()`, `str.splitlines()`, `str.startswith`) -/

/-- Split a character list at whitespace runs, dropping empty chunks,
as Python `str.split()` with no separator does. -/
def pySplitAux : List Char → List Char → List String
  | [], acc => if acc = [] then [] else [String.mk acc.reverse]
  | c :: rest, acc =>
      if c.isWhitespace then
        (if acc = [] then [] else [String.mk acc.reverse]) ++ pySplitAux rest []
      else
        pySplitAux rest (c :: acc)

def pySplit (s : String) : List String := pySplitAux s.toList []

/-- Split at newline characters, as Python `str.splitlines()` does for
newline-terminated text (the one separator the report uses). -/
def pyLinesAux : List Char → List Char → List String
  | [], acc => [String.mk acc.reverse]
  | c :: rest, acc =>
      if c = '\n' then String.mk acc.reverse :: pyLinesAux rest []
      else pyLinesAux rest (c :: acc)

def pyLines (s : String) : List String := pyLinesAux s.toList []

def pyStartsWith (s : String) (p : String) : Bool :=
  p.toList.isPrefixOf s.toList

/-! ## ConfigReader (`get_dump_config`) -/

/-- A value held in the parsed configuration mapping: a raw string token,
or a boolean after TRUE/FALSE/ON/OFF conversion. -/
inductive Value where
  | str : String → Value
  | bool : Bool → Value
deriving DecidableEq, Repr

/-- The configuration mapping built by the parsing loop; each field is the
entry the corresponding report line inserts (absent when no line matched). -/
structure RawConfig where
  primary : Option Value := none
  secondary : Option Value := none
  copy_directory : Option Value := none
  forced_copy_flag : Option Value := none
  always_allow_dump : Option Value := none
  dump_compression : Option Value := none
  dump_type : Option Value := none
  dump_mode : Option Value := none
  nx_gzip : Option Value := none
deriving DecidableEq, Repr

/-- One iteration of the parsing loop of `get_dump_config`: each recognized
line prefix stores a fixed token position of the whitespace-split line.
`none` models the unhandled IndexError Python raises when the indexed
token does not exist. -/
def parseLine (cfg : RawConfig) (line : String) : Option RawConfig := do
  let toks := pySplit line
  let cfg ← if pyStartsWith line "primary" then
      (toks.get? 1).map fun t => { cfg with primary := some (Value.str t) }
    else some cfg
  let cfg ← if pyStartsWith line "secondary" then
      (toks.get? 1).map fun t => { cfg with secondary := some (Value.str t) }
    else some cfg
  let cfg ← if pyStartsWith line "copy directory" then
      (toks.get? 2).map fun t => { cfg with copy_directory := some (Value.str t) }
    else some cfg
  let cfg ← if pyStartsWith line "forced copy flag" then
      (toks.get? 3).map fun t => { cfg with forced_copy_flag := some (Value.str t) }
    else some cfg
  let cfg ← if pyStartsWith line "always allow dump" then
      (toks.get? 3).map fun t => { cfg with always_allow_dump := some (Value.str t) }
    else some cfg
  let cfg ← if pyStartsWith line "dump compression" then
      (toks.get? 2).map fun t => { cfg with dump_compression := some (Value.str t) }
    else some cfg
  let cfg ← if pyStartsWith line "type of dump" then
      (toks.get? 3).map fun t => { cfg with dump_type := some (Value.str t) }
    else some cfg
  let cfg ← if pyStartsWith line "full memory dump" then
      (toks.get? 3).map fun t => { cfg with dump_mode := some (Value.str t) }
    else some cfg
  let cfg ← if pyStartsWith line "enable NX GZIP" then
      (toks.get? 3).map fun t => { cfg with nx_gzip := some (Value.str t) }
    else some cfg
  some cfg

def parseLines (lines : List String) : Option RawConfig :=
  lines.foldlM parseLine {}

/-- The sequential TRUE/FALSE/ON/OFF conversion chain applied to each
stored value by the second loop of `get_dump_config`; only string values
are converted (the `isinstance(value, str)` guards). -/
def boolStep (v : Value) : Value :=
  let v := match v with
    | Value.str s => if s = "TRUE" then Value.bool true else Value.str s
    | w => w
  let v := match v with
    | Value.str s => if s = "FALSE" then Value.bool false else Value.str s
    | w => w
  let v := match v with
    | Value.str s => if s = "ON" then Value.bool true else Value.str s
    | w => w
  match v with
    | Value.str s => if s = "OFF" then Value.bool false else Value.str s
    | w => w

/-- The second loop of `get_dump_config`: apply the conversion chain to
every entry present in the mapping. -/
def boolPass (r : RawConfig) : RawConfig where
  primary := r.primary.map boolStep
  secondary := r.secondary.map boolStep
  copy_directory := r.copy_directory.map boolStep
  forced_copy_flag := r.forced_copy_flag.map boolStep
  always_allow_dump := r.always_allow_dump.map boolStep
  dump_compression := r.dump_compression.map boolStep
  dump_type := r.dump_type.map boolStep
  dump_mode := r.dump_mode.map boolStep
  nx_gzip := r.nx_gzip.map boolStep

/-- Outcome of `get_dump_config`: the `fail_json` branch, an unhandled
IndexError during parsing, or the parsed configuration. -/
inductive QueryResult where
  | failed : String → Int → QueryResult
  | crashed : QueryResult
  | ok : RawConfig → QueryResult
deriving DecidableEq, Repr

def QueryResult.isFailed : QueryResult → Bool
  | .failed _ _ => true
  | _ => false

/-- `get_dump_config`, with the query collaborator's result
`(queryRc, stdout, stderr)` passed in. The local status variable is
rebound to zero right after the command runs, exactly as the source does,
before the nonzero check. -/
def get_dump_config (queryRc : Int) (stdout : String) (stderr : String) : QueryResult :=
  let rc := queryRc
  let rc := 0
  if rc ≠ 0 then
    QueryResult.failed ("Failed to run sysdumpdev command: sysdumpdev -l") rc
  else
    match parseLines (pyLines stdout) with
    | none => QueryResult.crashed
    | some raw => QueryResult.ok (boolPass raw)

/-! ## Reconciler (`update_dump_config`, `set_dump_config`) -/

/-- The module parameters reaching `update_dump_config` (already validated
upstream); `none` is Python `None`, "not specified". -/
structure Params where
  primary : Option String := none
  secondary : Option String := none
  permanent : Bool := false
  copy_directory : Option String := none
  forced_copy_flag : Option Bool := none
  always_allow_dump : Option Bool := none
  nx_gzip : Option Bool := none
  dump_type : Option String := none
  dump_mode : Option String := none
deriving DecidableEq, Repr

/-- The current configuration as `update_dump_config` reads it: every key
it accesses unconditionally is a mandatory field; `nx_gzip` is optional
because the source explicitly tests for the key's presence. -/
structure CurrentConfig where
  primary : String
  secondary : String
  copy_directory : String
  forced_copy_flag : Bool
  always_allow_dump : Bool
  dump_type : String
  dump_mode : String
  nx_gzip : Option Bool := none
deriving DecidableEq, Repr

/-- The `return_dict` of the source; `rc` is `none` while it still holds
the initial empty-string placeholder. -/
structure ReturnDict where
  changed : Bool
  cmd : String
  rc : Option Int
  stdout : String
  stderr : String
  msg : Option String
deriving DecidableEq, Repr

/-- A `fail_json` call: the failure message plus the keyword payload. -/
structure Failure where
  msg : String
  dict : ReturnDict
deriving DecidableEq, Repr

/-- Arguments contributed by the `primary` block of `update_dump_config`,
with its device-changed contribution. -/
def primaryArgs (p : Params) (c : CurrentConfig) : List String × Bool :=
  match p.primary with
  | some v => if v ≠ c.primary then (["-p", v], true) else ([], false)
  | none => ([], false)

/-- Arguments contributed by the `secondary` block. -/
def secondaryArgs (p : Params) (c : CurrentConfig) : List String × Bool :=
  match p.secondary with
  | some v => if v ≠ c.secondary then (["-s", v], true) else ([], false)
  | none => ([], false)

/-- The `-P` appended when `permanent` is set and a dump device changed. -/
def permArgs (p : Params) (c : CurrentConfig) : List String :=
  if p.permanent && ((primaryArgs p c).2 || (secondaryArgs p c).2) then ["-P"] else []

/-- The copy-directory / forced-copy-flag block: targets seeded from the
current values, overridden by a specified differing parameter; one of
`-D`/`-d` plus the target directory emitted when either changed. -/
def copyArgs (p : Params) (c : CurrentConfig) : List String × Bool :=
  let cd := match p.copy_directory with
    | some v => if v ≠ c.copy_directory then (true, v) else (false, c.copy_directory)
    | none => (false, c.copy_directory)
  let fc := match p.forced_copy_flag with
    | some v => if v ≠ c.forced_copy_flag then (true, v) else (false, c.forced_copy_flag)
    | none => (false, c.forced_copy_flag)
  if cd.1 || fc.1 then
    ((if fc.2 then "-D" else "-d") :: [cd.2], true)
  else ([], false)

/-- The `always_allow_dump` block. -/
def alwaysAllowArgs (p : Params) (c : CurrentConfig) : List String × Bool :=
  match p.always_allow_dump with
  | some v => if v ≠ c.always_allow_dump then ([if v then "-K" else "-k"], true) else ([], false)
  | none => ([], false)

/-- The `nx_gzip` block; `Except.error` models the `fail_json` taken when
the parameter is specified but the key is absent from the current
configuration. -/
def nxGzipArgs (p : Params) (c : CurrentConfig) : Except Unit (List String × Bool) :=
  match p.nx_gzip with
  | some g =>
      match c.nx_gzip with
      | some cg =>
          if g ≠ cg then Except.ok ([if g then "-N" else "-n"], true)
          else Except.ok ([], false)
      | none => Except.error ()
  | none => Except.ok ([], false)

/-- The `dump_type` block. -/
def dumpTypeArgs (p : Params) (c : CurrentConfig) : List String × Bool :=
  match p.dump_type with
  | some v => if v ≠ c.dump_type then (["-t", v], true) else ([], false)
  | none => ([], false)

/-- The `dump_mode` block; `Except.error` models the `fail_json` taken
whenever the parameter is specified while the current dump type is not
`fw-assisted`, equal or not to the current mode. -/
def dumpModeArgs (p : Params) (c : CurrentConfig) : Except Unit (List String × Bool) :=
  match p.dump_mode with
  | some v =>
      if c.dump_type ≠ "fw-assisted" then Except.error ()
      else if c.dump_type = "fw-assisted" ∧ v ≠ c.dump_mode then Except.ok (["-f", v], true)
      else Except.ok ([], false)
  | none => Except.ok ([], false)

/-- The `return_dict` as it stands when a `fail_json` fires during
accumulation: only `changed` may have been touched so far. -/
def failDict (ch : Bool) : ReturnDict :=
  { changed := ch, cmd := "", rc := none, stdout := "", stderr := "", msg := none }

/-- The accumulation phase of `update_dump_config`: the blocks above run
in source order, appending to `cmd_args` and or-ing into `changed`;
either `fail_json` aborts with the message and the `return_dict` as it
stands at that point. -/
def buildArgs (p : Params) (c : CurrentConfig) : Except Failure (List String × Bool) :=
  let ch3 := ((primaryArgs p c).2 || (secondaryArgs p c).2) || (copyArgs p c).2
      || (alwaysAllowArgs p c).2
  match nxGzipArgs p c with
  | Except.error _ =>
      Except.error { msg := "nx_gzip option not available on target system",
                     dict := failDict ch3 }
  | Except.ok nx =>
      let ch5 := ch3 || nx.2 || (dumpTypeArgs p c).2
      match dumpModeArgs p c with
      | Except.error _ =>
          Except.error { msg := "dump_type must be fw-assisted before you configure dump_mode",
                         dict := failDict ch5 }
      | Except.ok md =>
          Except.ok ((primaryArgs p c).1 ++ (secondaryArgs p c).1 ++ permArgs p c
            ++ (copyArgs p c).1 ++ (alwaysAllowArgs p c).1 ++ nx.1
            ++ (dumpTypeArgs p c).1 ++ md.1,
            ch5 || md.2)

/-- The arguments accumulated before the `dump_mode` block runs. -/
def preModeArgs (p : Params) (c : CurrentConfig) : List String :=
  (primaryArgs p c).1 ++ (secondaryArgs p c).1 ++ permArgs p c
    ++ (copyArgs p c).1 ++ (alwaysAllowArgs p c).1
    ++ (match nxGzipArgs p c with | Except.ok nx => nx.1 | Except.error _ => [])
    ++ (dumpTypeArgs p c).1

/-- The resolved command name (`module.get_bin_path('sysdumpdev')`). -/
def sysdumpdevPath : String := "sysdumpdev"

structure SetResult where
  changed : Bool
  cmd : String
  rc : Int
  stdout : String
  stderr : String
deriving DecidableEq, Repr

/-- `set_dump_config`, with the apply collaborator `run` injected:
runs the command and fails on a nonzero exit code. -/
def set_dump_config (run : List String → Int × String × String)
    (cmd_args : List String) : Except Failure SetResult :=
  let cmd := sysdumpdevPath :: cmd_args
  let (rc, stdout, stderr) := run cmd
  if rc ≠ 0 then
    Except.error { msg := "Failed to run sysdumpdev command: " ++ String.intercalate " " cmd,
                   dict := { changed := false, cmd := "", rc := some rc, stdout := stdout,
                             stderr := stderr, msg := none } }
  else
    Except.ok { changed := false, cmd := String.intercalate " " cmd, rc := rc,
                stdout := stdout, stderr := stderr }

/-- `update_dump_config`, with check mode and the apply collaborator
injected. The second component lists the argument vectors passed to the
apply collaborator during the call (empty exactly when the apply command
was never invoked). -/
def update_dump_config (p : Params) (c : CurrentConfig) (check_mode : Bool)
    (run : List String → Int × String × String) :
    Except Failure ReturnDict × List (List String) :=
  match buildArgs p c with
  | Except.error f => (Except.error f, [])
  | Except.ok (cmd_args, changed) =>
    if changed then
      if check_mode then
        (Except.ok { changed := true,
                     cmd := "sysdumpdev " ++ String.intercalate " " cmd_args,
                     rc := none, stdout := "", stderr := "", msg := none }, [])
      else
        match set_dump_config run cmd_args with
        | Except.error f => (Except.error f, [sysdumpdevPath :: cmd_args])
        | Except.ok s =>
            (Except.ok { changed := true, cmd := s.cmd, rc := some s.rc,
                         stdout := s.stdout, stderr := s.stderr, msg := none },
             [sysdumpdevPath :: cmd_args])
    else
      (Except.ok { changed := false, cmd := "", rc := some 0, stdout := "", stderr := "",
                   msg := some "No modification is required" }, [])

/-- The failure message of a reconciliation outcome, when it failed. -/
def resultMsg (r : Except Failure ReturnDict × List (List String)) : Option String :=
  match r.1 with
  | Except.error f => some f.msg
  | Except.ok _ => none

/-- A trivial collaborator for concrete instantiations: always succeeds
with empty output. -/
def run0 : List String → Int × String × String := fun _ => (0, "", "")

/-- Whether a parsed value is still a raw string token. -/
def Value.isString : Value → Bool
  | Value.str _ => true
  | Value.bool _ => false

/-- A parsed record whose only entry is `primary`, already converted to a
boolean by the conversion pass. -/
def cfgPrimTrue : RawConfig := { primary := some (Value.bool true) }

/-- A current configuration used to instantiate the reconciler theorems. -/
def cW : CurrentConfig :=
  { primary := "/dev/hd6", secondary := "/dev/sysdumpnull",
    copy_directory := "/var/adm/ras", forced_copy_flag := true,
    always_allow_dump := false, dump_type := "traditional",
    dump_mode := "disallow", nx_gzip := none }

/-- The empty desired-parameter record: nothing specified. -/
def pNone : Params := {}

/-- Desired parameters for the C5 witness. -/
def p5W : Params := { copy_directory := some "/var/adm/dump", forced_copy_flag := some true }

/-- Desired parameters for the C6 witness. -/
def p6W : Params :=
  { primary := some "/dev/sysdump0", secondary := some "/dev/sysdump1", permanent := true }

/-! ## Theorems about the ConfigReader -/

theorem get_dump_config_reduces (q : Int) (out err : String) :
    get_dump_config q out err =
      (match parseLines (pyLines out) with
       | none => QueryResult.crashed
       | some raw => QueryResult.ok (boolPass raw)) := rfl

/-- C1: `get_dump_config` never surfaces a query-command failure: for
every exit code of the query command the `fail_json` branch is
unreachable (the status variable is reset to zero before the nonzero
check), and the result is the same as if the command had exited zero:
parsing proceeds on stdout. -/
theorem get_dump_config_never_fails (queryRc : Int) (out err : String) :
    (get_dump_config queryRc out err).isFailed = false ∧
      get_dump_config queryRc out err = get_dump_config 0 out err := by
  constructor
  · rw [get_dump_config_reduces]
    cases hp : parseLines (pyLines out) <;> simp [QueryResult.isFailed]
  · rw [get_dump_config_reduces, get_dump_config_reduces]

/-- C10: the line parsing of `get_dump_config` is partial: a report line
that starts with the recognized `primary` token yet has no second
whitespace-separated token makes the indexed read fail, so the total
embedding returns the crash outcome rather than a configuration or a
reported failure. -/
theorem short_line_crashes_parsing :
    get_dump_config 0 "primary" "" = QueryResult.crashed ∧
      pyStartsWith "primary" "primary" = true ∧
      (pySplit "primary").get? 1 = none := by decide

/-- C3 counterexample: the TRUE/FALSE/ON/OFF conversion is applied to
every entry of the mapping, not only to boolean-valued fields: a report
whose `primary` (path-valued) line carries the token `TRUE` yields a
boolean in the `primary` field, so the path field does not pass through
unchanged as a string. -/
theorem bool_conversion_rewrites_path_field :
    get_dump_config 0 "primary TRUE" "" = QueryResult.ok cfgPrimTrue ∧
      (Value.bool true).isString = false ∧
      cfgPrimTrue.primary = some (Value.bool true) := by decide

/-- C3 (amended): the conversion is applied per token, uniformly over all
parsed fields: a string token equal to TRUE or ON becomes boolean true,
FALSE or OFF becomes boolean false, any other token passes through
unchanged as a string, and every field of the record returned by
`get_dump_config` is the converted image of the corresponding raw parsed
token. -/
theorem bool_token_conversion :
    (∀ s : String, boolStep (Value.str s) =
       if s = "TRUE" ∨ s = "ON" then Value.bool true
       else if s = "FALSE" ∨ s = "OFF" then Value.bool false
       else Value.str s) ∧
    (∀ b : Bool, boolStep (Value.bool b) = Value.bool b) ∧
    (∀ (queryRc : Int) (out err : String) (cfg : RawConfig),
       get_dump_config queryRc out err = QueryResult.ok cfg →
       ∃ raw, parseLines (pyLines out) = some raw ∧
         cfg.primary = raw.primary.map boolStep ∧
         cfg.secondary = raw.secondary.map boolStep ∧
         cfg.copy_directory = raw.copy_directory.map boolStep ∧
         cfg.forced_copy_flag = raw.forced_copy_flag.map boolStep ∧
         cfg.always_allow_dump = raw.always_allow_dump.map boolStep ∧
         cfg.dump_compression = raw.dump_compression.map boolStep ∧
         cfg.dump_type = raw.dump_type.map boolStep ∧
         cfg.dump_mode = raw.dump_mode.map boolStep ∧
         cfg.nx_gzip = raw.nx_gzip.map boolStep) := by
  refine ⟨?_, ?_, ?_⟩
  · intro s
    by_cases h1 : s = "TRUE"
    · subst h1; decide
    by_cases h2 : s = "ON"
    · subst h2; decide
    by_cases h3 : s = "FALSE"
    · subst h3; decide
    by_cases h4 : s = "OFF"
    · subst h4; decide
    unfold boolStep
    simp [h1, h2, h3, h4]
  · intro b; cases b <;> decide
  · intro queryRc out err cfg h
    rw [get_dump_config_reduces] at h
    cases hp : parseLines (pyLines out) <;> rw [hp] at h
    · exact absurd h (by simp)
    · rename_i raw
      refine ⟨raw, rfl, ?_⟩
      have hcfg : cfg = boolPass raw := by
        cases h
        rfl
      subst hcfg
      exact ⟨rfl, rfl, rfl, rfl, rfl, rfl, rfl, rfl, rfl⟩

/-- Witness for the amended C3 theorem at a concrete report. -/
theorem bool_token_conversion_witness :
    ∃ raw, parseLines (pyLines "primary TRUE") = some raw ∧
      cfgPrimTrue.primary = raw.primary.map boolStep ∧
      cfgPrimTrue.secondary = raw.secondary.map boolStep ∧
      cfgPrimTrue.copy_directory = raw.copy_directory.map boolStep ∧
      cfgPrimTrue.forced_copy_flag = raw.forced_copy_flag.map boolStep ∧
      cfgPrimTrue.always_allow_dump = raw.always_allow_dump.map boolStep ∧
      cfgPrimTrue.dump_compression = raw.dump_compression.map boolStep ∧
      cfgPrimTrue.dump_type = raw.dump_type.map boolStep ∧
      cfgPrimTrue.dump_mode = raw.dump_mode.map boolStep ∧
      cfgPrimTrue.nx_gzip = raw.nx_gzip.map boolStep :=
  bool_token_conversion.2.2 0 "primary TRUE" "" cfgPrimTrue (by decide)

/-! ## Helper lemmas about the Reconciler's accumulation blocks -/

theorem primaryArgs_nil_iff (p : Params) (c : CurrentConfig) :
    (primaryArgs p c).1 = [] ↔ (primaryArgs p c).2 = false := by
  unfold primaryArgs
  rcases p.primary with _ | v
  · simp
  · by_cases h : v = c.primary <;> simp [h]

theorem secondaryArgs_nil_iff (p : Params) (c : CurrentConfig) :
    (secondaryArgs p c).1 = [] ↔ (secondaryArgs p c).2 = false := by
  unfold secondaryArgs
  rcases p.secondary with _ | v
  · simp
  · by_cases h : v = c.secondary <;> simp [h]

theorem ite_pair_nil_iff (C : Prop) [Decidable C] (s : String) (l : List String) :
    (if C then (s :: l, true) else ([], false)).1 = [] ↔
      (if C then (s :: l, true) else ([], false)).2 = false := by
  split <;> simp

theorem copyArgs_nil_iff (p : Params) (c : CurrentConfig) :
    (copyArgs p c).1 = [] ↔ (copyArgs p c).2 = false :=
  ite_pair_nil_iff _ _ _

theorem alwaysAllowArgs_nil_iff (p : Params) (c : CurrentConfig) :
    (alwaysAllowArgs p c).1 = [] ↔ (alwaysAllowArgs p c).2 = false := by
  unfold alwaysAllowArgs
  rcases p.always_allow_dump with _ | v
  · simp
  · by_cases h : v = c.always_allow_dump <;> simp [h]

theorem dumpTypeArgs_nil_iff (p : Params) (c : CurrentConfig) :
    (dumpTypeArgs p c).1 = [] ↔ (dumpTypeArgs p c).2 = false := by
  unfold dumpTypeArgs
  rcases p.dump_type with _ | v
  · simp
  · by_cases h : v = c.dump_type <;> simp [h]

theorem nxGzipArgs_ok_nil_iff (p : Params) (c : CurrentConfig) (v : List String × Bool)
    (h : nxGzipArgs p c = Except.ok v) : v.1 = [] ↔ v.2 = false := by
  unfold nxGzipArgs at h
  rcases hg : p.nx_gzip with _ | g <;> rw [hg] at h
  · cases h; simp
  · rcases hc : c.nx_gzip with _ | cg <;> rw [hc] at h
    · exact absurd h (by simp)
    · by_cases he : g = cg <;> simp [he] at h <;> rw [← h] <;> simp

theorem dumpModeArgs_ok_nil_iff (p : Params) (c : CurrentConfig) (v : List String × Bool)
    (h : dumpModeArgs p c = Except.ok v) : v.1 = [] ↔ v.2 = false := by
  unfold dumpModeArgs at h
  rcases hm : p.dump_mode with _ | m <;> rw [hm] at h <;> dsimp only at h
  · cases h; simp
  · by_cases hfw : c.dump_type ≠ "fw-assisted"
    · rw [if_pos hfw] at h
      exact absurd h (by simp)
    · rw [if_neg hfw] at h
      by_cases hd : c.dump_type = "fw-assisted" ∧ m ≠ c.dump_mode
      · rw [if_pos hd] at h; cases h; simp
      · rw [if_neg hd] at h; cases h; simp

theorem permArgs_nil (p : Params) (c : CurrentConfig)
    (h1 : (primaryArgs p c).2 = false) (h2 : (secondaryArgs p c).2 = false) :
    permArgs p c = [] := by
  unfold permArgs
  simp [h1, h2]

/-- Splitting a successful accumulation into the per-block contributions
in source order. -/
theorem buildArgs_ok_split (p : Params) (c : CurrentConfig) (args : List String) (ch : Bool)
    (h : buildArgs p c = Except.ok (args, ch)) :
    ∃ nx md, nxGzipArgs p c = Except.ok nx ∧ dumpModeArgs p c = Except.ok md ∧
      args = (primaryArgs p c).1 ++ (secondaryArgs p c).1 ++ permArgs p c ++ (copyArgs p c).1
        ++ (alwaysAllowArgs p c).1 ++ nx.1 ++ (dumpTypeArgs p c).1 ++ md.1 ∧
      ch = (((((primaryArgs p c).2 || (secondaryArgs p c).2) || (copyArgs p c).2
        || (alwaysAllowArgs p c).2) || nx.2 || (dumpTypeArgs p c).2) || md.2) := by
  unfold buildArgs at h
  rcases hnx : nxGzipArgs p c with e | nx <;> rw [hnx] at h
  · exact absurd h (by simp)
  · rcases hmd : dumpModeArgs p c with e | md <;> rw [hmd] at h <;> dsimp only at h
    · exact absurd h (by simp)
    · rw [Except.ok.injEq, Prod.mk.injEq] at h
      exact ⟨nx, md, rfl, rfl, h.1.symm, h.2.symm⟩

/-- A successful accumulation marks `changed` exactly when it emitted at
least one argument. -/
theorem buildArgs_args_nil_iff (p : Params) (c : CurrentConfig) (args : List String) (ch : Bool)
    (h : buildArgs p c = Except.ok (args, ch)) : args = [] ↔ ch = false := by
  obtain ⟨nx, md, hnx, hmd, hargs, hch⟩ := buildArgs_ok_split p c args ch h
  subst hargs hch
  constructor
  · intro h0
    simp only [List.append_eq_nil] at h0
    obtain ⟨⟨⟨⟨⟨⟨⟨e1, e2⟩, _⟩, e4⟩, e5⟩, e6⟩, e7⟩, e8⟩ := h0
    rw [(primaryArgs_nil_iff p c).mp e1, (secondaryArgs_nil_iff p c).mp e2,
        (copyArgs_nil_iff p c).mp e4, (alwaysAllowArgs_nil_iff p c).mp e5,
        (nxGzipArgs_ok_nil_iff p c nx hnx).mp e6, (dumpTypeArgs_nil_iff p c).mp e7,
        (dumpModeArgs_ok_nil_iff p c md hmd).mp e8]
    rfl
  · intro h0
    simp only [Bool.or_eq_false_iff] at h0
    obtain ⟨⟨⟨⟨⟨⟨f1, f2⟩, f4⟩, f5⟩, f6⟩, f7⟩, f8⟩ := h0
    rw [(primaryArgs_nil_iff p c).mpr f1, (secondaryArgs_nil_iff p c).mpr f2,
        (copyArgs_nil_iff p c).mpr f4, (alwaysAllowArgs_nil_iff p c).mpr f5,
        (nxGzipArgs_ok_nil_iff p c nx hnx).mpr f6, (dumpTypeArgs_nil_iff p c).mpr f7,
        (dumpModeArgs_ok_nil_iff p c md hmd).mpr f8,
        permArgs_nil p c f1 f2]
    rfl

/-! ## Theorems about the Reconciler -/

/-- C4: when the accumulation produced at least one flag and check mode
is active, the result is changed with the command text synthesized from
the command name and the accumulated arguments, the apply collaborator is
never invoked, and return code, stdout and stderr stay empty. -/
theorem check_mode_reports_without_apply (p : Params) (c : CurrentConfig)
    (run : List String → Int × String × String) (args : List String) (ch : Bool)
    (hb : buildArgs p c = Except.ok (args, ch)) (hne : args ≠ []) :
    update_dump_config p c true run =
      (Except.ok { changed := true, cmd := "sysdumpdev " ++ String.intercalate " " args,
                   rc := none, stdout := "", stderr := "", msg := none }, []) := by
  have hch : ch = true := by
    cases ch
    · exact absurd ((buildArgs_args_nil_iff p c args false hb).mpr rfl) hne
    · rfl
  subst hch
  unfold update_dump_config
  rw [hb]
  rfl

/-- Witness for C4. -/
theorem check_mode_reports_without_apply_witness :
    update_dump_config { primary := some "/dev/sysdump9" } cW true run0 =
      (Except.ok { changed := true,
                   cmd := "sysdumpdev " ++ String.intercalate " " ["-p", "/dev/sysdump9"],
                   rc := none, stdout := "", stderr := "", msg := none }, []) :=
  check_mode_reports_without_apply { primary := some "/dev/sysdump9" } cW run0
    ["-p", "/dev/sysdump9"] true (by decide) (by decide)

/-- C8: when the accumulation produced no flag at all, the result is
unchanged with return code zero, the no-modification message, empty
command text, stdout and stderr, and the apply collaborator is never
invoked. -/
theorem no_change_no_modification (p : Params) (c : CurrentConfig) (check : Bool)
    (run : List String → Int × String × String) (ch : Bool)
    (hb : buildArgs p c = Except.ok ([], ch)) :
    update_dump_config p c check run =
      (Except.ok { changed := false, cmd := "", rc := some 0, stdout := "", stderr := "",
                   msg := some "No modification is required" }, []) := by
  have hch : ch = false := (buildArgs_args_nil_iff p c [] ch hb).mp rfl
  subst hch
  unfold update_dump_config
  rw [hb]
  rfl

/-- Witness for C8: every specified field equals its current value. -/
theorem no_change_no_modification_witness :
    update_dump_config { primary := some "/dev/hd6", secondary := some "/dev/sysdumpnull" }
      cW false run0 =
      (Except.ok { changed := false, cmd := "", rc := some 0, stdout := "", stderr := "",
                   msg := some "No modification is required" }, []) :=
  no_change_no_modification { primary := some "/dev/hd6", secondary := some "/dev/sysdumpnull" }
    cW false run0 false (by decide)

/-- C7: when `nx_gzip` is requested but the current configuration has no
such field, the call fails at once with the unsupported-feature message,
nothing is appended, later fields are not processed (the failure wins for
every value of the remaining parameters) and the apply collaborator is
never invoked; when the field is present, `-N`/`-n` is emitted exactly
when the requested value differs. -/
theorem nx_gzip_unsupported_aborts (p : Params) (c : CurrentConfig) (g : Bool)
    (check : Bool) (run : List String → Int × String × String)
    (hg : p.nx_gzip = some g) :
    (c.nx_gzip = none → ∃ d,
       update_dump_config p c check run =
         (Except.error { msg := "nx_gzip option not available on target system",
                         dict := d }, [])) ∧
    (∀ cg, c.nx_gzip = some cg →
       (g = cg → nxGzipArgs p c = Except.ok ([], false)) ∧
       (g ≠ cg → nxGzipArgs p c = Except.ok ([if g then "-N" else "-n"], true))) := by
  constructor
  · intro hc
    have hnx : nxGzipArgs p c = Except.error () := by
      unfold nxGzipArgs
      rw [hg]
      dsimp only
      rw [hc]
    refine ⟨failDict (((primaryArgs p c).2 || (secondaryArgs p c).2) || (copyArgs p c).2
      || (alwaysAllowArgs p c).2), ?_⟩
    unfold update_dump_config buildArgs
    rw [hnx]
  · intro cg hc
    constructor
    · intro he
      unfold nxGzipArgs
      rw [hg]
      dsimp only
      rw [hc]
      dsimp only
      rw [if_neg (by simp [he])]
    · intro hne
      unfold nxGzipArgs
      rw [hg]
      dsimp only
      rw [hc]
      dsimp only
      rw [if_pos hne]

/-- Witness for C7. -/
theorem nx_gzip_unsupported_aborts_witness :
    ∃ d, update_dump_config { nx_gzip := some true, dump_mode := some "allow" } cW false run0 =
      (Except.error { msg := "nx_gzip option not available on target system",
                      dict := d }, []) :=
  (nx_gzip_unsupported_aborts { nx_gzip := some true, dump_mode := some "allow" } cW true
    false run0 rfl).1 rfl

/-- C9: a field left unspecified contributes no flag: each block emits
nothing when its parameter is `none` (for the copy group, under the
upstream required-together precondition), and a successful accumulation
is exactly the concatenation of the per-block contributions. -/
theorem unspecified_fields_contribute_nothing (p : Params) (c : CurrentConfig)
    (hreq : p.copy_directory = none → p.forced_copy_flag = none) :
    (p.primary = none → (primaryArgs p c).1 = []) ∧
    (p.secondary = none → (secondaryArgs p c).1 = []) ∧
    (p.permanent = false → permArgs p c = []) ∧
    (p.copy_directory = none → (copyArgs p c).1 = []) ∧
    (p.always_allow_dump = none → (alwaysAllowArgs p c).1 = []) ∧
    (p.nx_gzip = none → nxGzipArgs p c = Except.ok ([], false)) ∧
    (p.dump_type = none → (dumpTypeArgs p c).1 = []) ∧
    (p.dump_mode = none → dumpModeArgs p c = Except.ok ([], false)) ∧
    (∀ args ch, buildArgs p c = Except.ok (args, ch) →
       args = (primaryArgs p c).1 ++ (secondaryArgs p c).1 ++ permArgs p c ++ (copyArgs p c).1
         ++ (alwaysAllowArgs p c).1
         ++ (match nxGzipArgs p c with | Except.ok nx => nx.1 | Except.error _ => [])
         ++ (dumpTypeArgs p c).1
         ++ (match dumpModeArgs p c with | Except.ok md => md.1 | Except.error _ => [])) := by
  refine ⟨?_, ?_, ?_, ?_, ?_, ?_, ?_, ?_, ?_⟩
  · intro h; unfold primaryArgs; rw [h]
  · intro h; unfold secondaryArgs; rw [h]
  · intro h; unfold permArgs; rw [h]; rfl
  · intro h; unfold copyArgs; rw [h, hreq h]; rfl
  · intro h; unfold alwaysAllowArgs; rw [h]
  · intro h; unfold nxGzipArgs; rw [h]
  · intro h; unfold dumpTypeArgs; rw [h]
  · intro h; unfold dumpModeArgs; rw [h]
  · intro args ch hbok
    obtain ⟨nx, md, hnx2, hmd2, hargs, _⟩ := buildArgs_ok_split p c args ch hbok
    rw [hargs, hnx2, hmd2]

/-- Witness for C9 at the empty desired-parameter record. -/
theorem unspecified_fields_contribute_nothing_witness :
    (primaryArgs pNone cW).1 = [] ∧ (secondaryArgs pNone cW).1 = [] ∧ permArgs pNone cW = [] ∧
      (copyArgs pNone cW).1 = [] ∧ (alwaysAllowArgs pNone cW).1 = [] ∧
      nxGzipArgs pNone cW = Except.ok ([], false) ∧ (dumpTypeArgs pNone cW).1 = [] ∧
      dumpModeArgs pNone cW = Except.ok ([], false) := by
  have w := unspecified_fields_contribute_nothing pNone cW (fun _ => rfl)
  exact ⟨w.1 rfl, w.2.1 rfl, w.2.2.1 rfl, w.2.2.2.1 rfl, w.2.2.2.2.1 rfl,
         w.2.2.2.2.2.1 rfl, w.2.2.2.2.2.2.1 rfl, w.2.2.2.2.2.2.2.1 rfl⟩

/-- C2 counterexample: with `dump_mode` specified and the current dump
type not `fw-assisted`, the call can still fail with the earlier
`nx_gzip` unsupported-feature message instead of the dump-mode
precondition message, because the `nx_gzip` check runs first. -/
theorem nx_gzip_check_preempts_dump_mode :
    resultMsg (update_dump_config { nx_gzip := some true, dump_mode := some "allow" } cW
        false run0) = some "nx_gzip option not available on target system" ∧
      cW.dump_type = "traditional" ∧
      decide (("nx_gzip option not available on target system" : String) =
        "dump_type must be fw-assisted before you configure dump_mode") = false := by
  decide

/-- C2 (amended): when `dump_mode` is specified and the earlier `nx_gzip`
check does not fail, a current dump type other than `fw-assisted` makes
the call fail with the precondition message — even when the requested
mode equals the current one — and when the precondition holds, `-f` plus
the requested mode is appended exactly when it differs from the current
mode. -/
theorem dump_mode_precondition (p : Params) (c : CurrentConfig) (m : String)
    (hm : p.dump_mode = some m) (hnx : ∃ v, nxGzipArgs p c = Except.ok v) :
    (c.dump_type ≠ "fw-assisted" →
       ∀ (check : Bool) (run : List String → Int × String × String), ∃ d,
         update_dump_config p c check run =
           (Except.error { msg := "dump_type must be fw-assisted before you configure dump_mode",
                           dict := d }, [])) ∧
    (c.dump_type = "fw-assisted" →
       ∀ args ch, buildArgs p c = Except.ok (args, ch) →
         args = preModeArgs p c ++ (if m = c.dump_mode then [] else ["-f", m])) := by
  obtain ⟨v, hv⟩ := hnx
  constructor
  · intro hne check run
    have hmd : dumpModeArgs p c = Except.error () := by
      unfold dumpModeArgs
      rw [hm]
      dsimp only
      rw [if_pos hne]
    refine ⟨failDict ((((primaryArgs p c).2 || (secondaryArgs p c).2) || (copyArgs p c).2
      || (alwaysAllowArgs p c).2) || v.2 || (dumpTypeArgs p c).2), ?_⟩
    unfold update_dump_config buildArgs
    rw [hv]
    dsimp only
    rw [hmd]
  · intro hfw args ch hbok
    have hmd : dumpModeArgs p c =
        (if m = c.dump_mode then Except.ok ([], false) else Except.ok (["-f", m], true)) := by
      unfold dumpModeArgs
      rw [hm]
      dsimp only
      rw [if_neg (by simp [hfw])]
      by_cases hd : m = c.dump_mode
      · rw [if_neg (by simp [hd]), if_pos hd]
      · rw [if_pos ⟨hfw, hd⟩, if_neg hd]
    obtain ⟨nx, md, hnx2, hmd2, hargs, _⟩ := buildArgs_ok_split p c args ch hbok
    have hpre : preModeArgs p c = (primaryArgs p c).1 ++ (secondaryArgs p c).1 ++ permArgs p c
        ++ (copyArgs p c).1 ++ (alwaysAllowArgs p c).1 ++ nx.1 ++ (dumpTypeArgs p c).1 := by
      unfold preModeArgs
      rw [hnx2]
    rw [hmd] at hmd2
    by_cases hd : m = c.dump_mode
    · rw [if_pos hd] at hmd2
      cases hmd2
      rw [hargs, hpre, if_pos hd, List.append_nil]
    · rw [if_neg hd] at hmd2
      cases hmd2
      rw [hargs, hpre, if_neg hd]

/-- Witness for the amended C2 theorem: the requested mode equals the
current one and the check still fires. -/
theorem dump_mode_precondition_witness :
    ∃ d, update_dump_config { dump_mode := some "disallow" } cW false run0 =
      (Except.error { msg := "dump_type must be fw-assisted before you configure dump_mode",
                      dict := d }, []) :=
  (dump_mode_precondition { dump_mode := some "disallow" } cW "disallow" rfl
    ⟨([], false), rfl⟩).1 (by decide) false run0

/-- C5: the copy group emits exactly one of `-D`/`-d` — chosen by the
target forced-copy flag — followed by the target copy directory, exactly
when the directory or the flag is specified and differs from current
(so changing only the flag re-supplies the current directory); otherwise
it emits nothing, and its contribution sits as one contiguous block
inside every successfully built command. -/
theorem copy_flag_selection (p : Params) (c : CurrentConfig) :
    ((∃ v, p.copy_directory = some v ∧ v ≠ c.copy_directory) ∨
       (∃ v, p.forced_copy_flag = some v ∧ v ≠ c.forced_copy_flag) →
       copyArgs p c = ([if p.forced_copy_flag.getD c.forced_copy_flag then "-D" else "-d",
                        p.copy_directory.getD c.copy_directory], true)) ∧
    (¬((∃ v, p.copy_directory = some v ∧ v ≠ c.copy_directory) ∨
       (∃ v, p.forced_copy_flag = some v ∧ v ≠ c.forced_copy_flag)) →
       copyArgs p c = ([], false)) ∧
    (∀ args ch, buildArgs p c = Except.ok (args, ch) →
       ∃ pre post, args = pre ++ (copyArgs p c).1 ++ post) := by
  refine ⟨?_, ?_, ?_⟩
  · intro hchg
    unfold copyArgs
    rcases hcd : p.copy_directory with _ | dv <;> rcases hfc : p.forced_copy_flag with _ | fv <;>
      rw [hcd, hfc] at hchg <;> simp only [Option.getD_some, Option.getD_none] <;>
      dsimp only
    · simp at hchg
    · simp only [reduceCtorEq, false_and, exists_false, false_or] at hchg
      obtain ⟨w, hw, hne⟩ := hchg
      cases hw
      simp [hne]
    · simp only [reduceCtorEq, false_and, exists_false, or_false] at hchg
      obtain ⟨w, hw, hne⟩ := hchg
      cases hw
      simp [hne]
    · by_cases h1 : dv = c.copy_directory <;> by_cases h2 : fv = c.forced_copy_flag <;>
        simp [h1, h2] at hchg ⊢
  · intro hnot
    unfold copyArgs
    rcases hcd : p.copy_directory with _ | dv <;> rcases hfc : p.forced_copy_flag with _ | fv <;>
      rw [hcd, hfc] at hnot <;> dsimp only <;> simp at hnot <;> simp [hnot]
  · intro args ch hbok
    obtain ⟨nx, md, hnx2, hmd2, hargs, _⟩ := buildArgs_ok_split p c args ch hbok
    exact ⟨(primaryArgs p c).1 ++ (secondaryArgs p c).1 ++ permArgs p c,
           (alwaysAllowArgs p c).1 ++ nx.1 ++ (dumpTypeArgs p c).1 ++ md.1,
           by rw [hargs]; simp [List.append_assoc]⟩

/-- Witness for C5: only the directory differs; the target flag (true)
selects `-D`. -/
theorem copy_flag_selection_witness :
    copyArgs p5W cW = ([if p5W.forced_copy_flag.getD cW.forced_copy_flag then "-D" else "-d",
                        p5W.copy_directory.getD cW.copy_directory], true) ∧
    (∃ pre post, ["-D", "/var/adm/dump"] = pre ++ (copyArgs p5W cW).1 ++ post) := by
  have w := copy_flag_selection p5W cW
  exact ⟨w.1 (Or.inl ⟨"/var/adm/dump", rfl, by decide⟩),
         w.2.2 ["-D", "/var/adm/dump"] true (by decide)⟩

/-- C6: with both devices specified and differing and `permanent` set
(and nothing else specified), the built sequence is exactly
`-p <primary> -s <secondary> -P` in that order; and when neither device
field changed, no `-P` is ever appended whatever `permanent` is. -/
theorem device_flags_order (p : Params) (c : CurrentConfig) :
    (∀ pv sv, p.primary = some pv → p.secondary = some sv →
       pv ≠ c.primary → sv ≠ c.secondary → p.permanent = true →
       p.copy_directory = none → p.forced_copy_flag = none → p.always_allow_dump = none →
       p.nx_gzip = none → p.dump_type = none → p.dump_mode = none →
       buildArgs p c = Except.ok (["-p", pv, "-s", sv, "-P"], true)) ∧
    ((∀ v, p.primary = some v → v = c.primary) → (∀ v, p.secondary = some v → v = c.secondary) →
       permArgs p c = []) := by
  constructor
  · intro pv sv hp hs hpne hsne hperm hcd hfc haa hnxg ht hmm
    have e1 : primaryArgs p c = (["-p", pv], true) := by
      unfold primaryArgs
      rw [hp]
      dsimp only
      rw [if_pos hpne]
    have e2 : secondaryArgs p c = (["-s", sv], true) := by
      unfold secondaryArgs
      rw [hs]
      dsimp only
      rw [if_pos hsne]
    have e3 : permArgs p c = ["-P"] := by
      unfold permArgs
      rw [e1, e2, hperm]
      rfl
    have e4 : copyArgs p c = ([], false) := by
      unfold copyArgs
      rw [hcd, hfc]
      rfl
    have e5 : alwaysAllowArgs p c = ([], false) := by
      unfold alwaysAllowArgs
      rw [haa]
    have e6 : nxGzipArgs p c = Except.ok ([], false) := by
      unfold nxGzipArgs
      rw [hnxg]
    have e7 : dumpTypeArgs p c = ([], false) := by
      unfold dumpTypeArgs
      rw [ht]
    have e8 : dumpModeArgs p c = Except.ok ([], false) := by
      unfold dumpModeArgs
      rw [hmm]
    unfold buildArgs
    rw [e6]
    dsimp only
    rw [e8]
    dsimp only
    rw [e1, e2, e3, e4, e5, e7]
    rfl
  · intro hpeq hseq
    have f1 : (primaryArgs p c).2 = false := by
      unfold primaryArgs
      rcases hp : p.primary with _ | v
      · rfl
      · dsimp only
        rw [if_neg (fun hne => hne (hpeq v hp))]
    have f2 : (secondaryArgs p c).2 = false := by
      unfold secondaryArgs
      rcases hs : p.secondary with _ | v
      · rfl
      · dsimp only
        rw [if_neg (fun hne => hne (hseq v hs))]
    exact permArgs_nil p c f1 f2

/-- Witness for C6. -/
theorem device_flags_order_witness :
    buildArgs p6W cW =
      Except.ok (["-p", "/dev/sysdump0", "-s", "/dev/sysdump1", "-P"], true) ∧
    permArgs pNone cW = [] := by
  constructor
  · exact (device_flags_order p6W cW).1
      "/dev/sysdump0" "/dev/sysdump1" rfl rfl (by decide) (by decide)
      rfl rfl rfl rfl rfl rfl rfl
  · exact (device_flags_order pNone cW).2 (fun v h => by cases h) (fun v h => by cases h)

end Sysdumpdev

